import Mathlib

/-!
Verification of the ingestion-and-upsert pipeline of the `answer-weaver`
repository, shallowly embedded in Lean 4.

The embedding covers:
* `src/data_source/reddit.py`: `get_comments_text` (comment flattener) and
  `fetch_subreddit_posts` (post fetcher);
* `src/db/qdrant.py`: `get_qdrant_client` (lazy singleton client),
  `initialize_qdrant_collection` (collection bootstrapper) and
  `upsert_posts_to_qdrant` (embedding and upsert engine), including the
  deterministic identifier mapping `uuid.uuid5(uuid.NAMESPACE_URL, post_id)`
  which we embed down to the byte level with a full SHA-1 implementation;
* `src/main.py`: `run_pipeline` (the orchestrator), with Python's
  exception classes `Exception` and `SystemExit` modelled explicitly.

External effects (the Reddit API, the Qdrant server, the embedding model)
are modelled as explicit inputs: the stream of submissions a fetch would
yield, injected failures for each store call, and the outcome of the
engine's try-block.
-/

namespace AnswerWeaver

/-! ## Byte-level helpers: big-endian encoding, SHA-1, UTF-8, hex

`uuid.uuid5` computes the SHA-1 digest of `namespace.bytes + name.encode("utf-8")`,
keeps the first 16 bytes, and forces the version / variant bits.  We embed
this computation exactly, on `List Nat` bytes with explicit `% 2 ^ 32`
masking for 32-bit arithmetic. -/

/-- `n` bytes of `x`, big-endian (most significant byte first). -/
def toBytesBE : Nat → Nat → List Nat
  | 0, _ => []
  | k + 1, x => toBytesBE k (x / 256) ++ [x % 256]

/-- Big-endian byte list to natural number. -/
def fromBytesBE (l : List Nat) : Nat :=
  l.foldl (fun a b => a * 256 + b) 0

/-- Rotate a 32-bit word left by `n` bits. -/
def rotl32 (n x : Nat) : Nat :=
  ((x <<< n) % 2 ^ 32) ||| (x >>> (32 - n))

/-- SHA-1 round function `f_t(b,c,d)` (FIPS 180-1); `~b` is taken within 32 bits. -/
def sha1F (t b c d : Nat) : Nat :=
  if t < 20 then (b &&& c) ||| ((b ^^^ (2 ^ 32 - 1)) &&& d)
  else if t < 40 then b ^^^ c ^^^ d
  else if t < 60 then (b &&& c) ||| (b &&& d) ||| (c &&& d)
  else b ^^^ c ^^^ d

/-- SHA-1 round constant `K_t`. -/
def sha1K (t : Nat) : Nat :=
  if t < 20 then 0x5A827999
  else if t < 40 then 0x6ED9EBA1
  else if t < 60 then 0x8F1BBCDC
  else 0xCA62C1D6

/-- The five 32-bit words of SHA-1 chaining state. -/
structure Sha1State where
  h0 : Nat
  h1 : Nat
  h2 : Nat
  h3 : Nat
  h4 : Nat
deriving Repr, DecidableEq

/-- SHA-1 initial chaining state. -/
def sha1Init : Sha1State :=
  ⟨0x67452301, 0xEFCDAB89, 0x98BADCFE, 0x10325476, 0xC3D2E1F0⟩

/-- Split a byte list into 64-byte blocks. -/
def chunks64 : List Nat → List (List Nat)
  | [] => []
  | b :: rest => ((b :: rest).take 64) :: chunks64 ((b :: rest).drop 64)
termination_by l => l.length
decreasing_by simp [List.length_drop]; omega

/-- Pad a message to a multiple of 64 bytes: `0x80`, zeros, 8-byte bit length. -/
def sha1Pad (msg : List Nat) : List Nat :=
  let padZeros := (55 + 64 - msg.length % 64) % 64
  msg ++ [0x80] ++ List.replicate padZeros 0 ++ toBytesBE 8 (8 * msg.length)

/-- The 80-word message schedule of one block (words 0-15 from the block,
words 16-79 by the xor-and-rotate recurrence). -/
def sha1Schedule (block : List Nat) : Array Nat :=
  let w0 := ((List.range 16).map (fun i => fromBytesBE ((block.drop (4 * i)).take 4))).toArray
  (List.range 64).foldl
    (fun a j =>
      let i := j + 16
      a.push (rotl32 1 (a.getD (i - 3) 0 ^^^ a.getD (i - 8) 0 ^^^
                        a.getD (i - 14) 0 ^^^ a.getD (i - 16) 0)))
    w0

/-- Process one 64-byte block, updating the chaining state. -/
def sha1Block (st : Sha1State) (block : List Nat) : Sha1State :=
  let w := sha1Schedule block
  let step := fun (s : Nat × Nat × Nat × Nat × Nat) (t : Nat) =>
    let (a, b, c, d, e) := s
    let temp := (rotl32 5 a + sha1F t b c d + e + sha1K t + w.getD t 0) % 2 ^ 32
    (temp, a, rotl32 30 b, c, d)
  let r := (List.range 80).foldl step (st.h0, st.h1, st.h2, st.h3, st.h4)
  ⟨(st.h0 + r.1) % 2 ^ 32, (st.h1 + r.2.1) % 2 ^ 32, (st.h2 + r.2.2.1) % 2 ^ 32,
   (st.h3 + r.2.2.2.1) % 2 ^ 32, (st.h4 + r.2.2.2.2) % 2 ^ 32⟩

/-- SHA-1 digest of a byte list: 20 bytes. -/
def sha1 (msg : List Nat) : List Nat :=
  let st := (chunks64 (sha1Pad msg)).foldl sha1Block sha1Init
  toBytesBE 4 st.h0 ++ toBytesBE 4 st.h1 ++ toBytesBE 4 st.h2 ++
  toBytesBE 4 st.h3 ++ toBytesBE 4 st.h4

/-- UTF-8 encoding of one character (as Python's `str.encode("utf-8")`). -/
def utf8EncodeChar (c : Char) : List Nat :=
  let v := c.toNat
  if v < 0x80 then [v]
  else if v < 0x800 then
    [0xC0 ||| (v >>> 6), 0x80 ||| (v &&& 0x3F)]
  else if v < 0x10000 then
    [0xE0 ||| (v >>> 12), 0x80 ||| ((v >>> 6) &&& 0x3F), 0x80 ||| (v &&& 0x3F)]
  else
    [0xF0 ||| (v >>> 18), 0x80 ||| ((v >>> 12) &&& 0x3F),
     0x80 ||| ((v >>> 6) &&& 0x3F), 0x80 ||| (v &&& 0x3F)]

/-- UTF-8 bytes of a string. -/
def utf8Bytes (s : String) : List Nat :=
  (s.data.map utf8EncodeChar).flatten

/-- Lower-case hex digit for `n < 16`. -/
def hexDigit (n : Nat) : Char :=
  if n < 10 then Char.ofNat (48 + n) else Char.ofNat (87 + n)

/-- Two lower-case hex digits of a byte. -/
def byteHex (b : Nat) : List Char :=
  [hexDigit (b / 16 % 16), hexDigit (b % 16)]

/-- Lower-case hex string of a byte list. -/
def bytesHex (l : List Nat) : String :=
  String.mk ((l.map byteHex).flatten)

/-! ## The identifier mapper (`src/db/qdrant.py`, `upsert_posts_to_qdrant`)

`REDDIT_ID_NAMESPACE = uuid.NAMESPACE_URL`, and each point id is
`str(uuid.uuid5(REDDIT_ID_NAMESPACE, post["id"]))`. -/

/-- `uuid.NAMESPACE_URL = 6ba7b811-9dad-11d1-80b4-00c04fd430c8` as bytes. -/
def NAMESPACE_URL : List Nat :=
  [0x6b, 0xa7, 0xb8, 0x11, 0x9d, 0xad, 0x11, 0xd1,
   0x80, 0xb4, 0x00, 0xc0, 0x4f, 0xd4, 0x30, 0xc8]

/-- The fixed namespace used by `upsert_posts_to_qdrant`. -/
def REDDIT_ID_NAMESPACE : List Nat := NAMESPACE_URL

/-- The 16 bytes of `uuid.uuid5(ns, name)`: first 16 bytes of
`SHA1(ns.bytes + name.encode("utf-8"))`, with byte 6 forced to version 5
and byte 8 forced to the RFC 4122 variant, exactly as CPython's
`uuid.UUID(bytes=..., version=5)` constructor does. -/
def uuid5Bytes (ns : List Nat) (name : String) : List Nat :=
  let d := (sha1 (ns ++ utf8Bytes name)).take 16
  let d := d.set 6 ((d.getD 6 0 &&& 0x0F) ||| 0x50)
  d.set 8 ((d.getD 8 0 &&& 0x3F) ||| 0x80)

/-- `str()` of a UUID: hex in 8-4-4-4-12 groups. -/
def uuidToString (b : List Nat) : String :=
  bytesHex (b.take 4) ++ "-" ++ bytesHex ((b.drop 4).take 2) ++ "-" ++
  bytesHex ((b.drop 6).take 2) ++ "-" ++ bytesHex ((b.drop 8).take 2) ++ "-" ++
  bytesHex (b.drop 10)

/-- The identifier mapping of the upsert engine:
`str(uuid.uuid5(REDDIT_ID_NAMESPACE, x))`.  A plain function of `x` alone. -/
def map_id (x : String) : String :=
  uuidToString (uuid5Bytes REDDIT_ID_NAMESPACE x)

/-- Version nibble of a UUID byte list (high nibble of byte 6). -/
def uuidVersion (b : List Nat) : Nat :=
  b.getD 6 0 / 16

/-- Variant bits of a UUID byte list (top two bits of byte 8). -/
def uuidVariant (b : List Nat) : Nat :=
  b.getD 8 0 / 64

/-! ## Data model

`RComment` is one node of `submission.comments.list()` after
`replace_more(limit=None)`: either a leftover `MoreComments` placeholder
(`isMore`) or a comment with a body and, when the attribute is present
(`hasDepth`), a 0-based depth.  `Submission` is the read-only view the
fetcher uses; `PostData` is the dictionary `fetch_subreddit_posts` builds. -/

/-- One node of the flattened comment forest. -/
structure RComment where
  isMore : Bool
  hasDepth : Bool
  depth : Nat
  body : String
deriving Repr, DecidableEq

/-- The fields of a PRAW submission read by the fetcher. -/
structure Submission where
  id : String
  title : String
  selftext : String
  url : String
  stickied : Bool
  comments : List RComment
deriving Repr, DecidableEq

/-- The post dictionary built by `fetch_subreddit_posts`. -/
structure PostData where
  id : String
  title : String
  url : String
  content : String
  comments : String
  combined_text : String
deriving Repr, DecidableEq

/-! ## Comment flattener (`src/data_source/reddit.py`, `get_comments_text`) -/

/-- The loop of `get_comments_text`, returning the accepted comments in
acceptance order.  `count` is the running `comment_count`; the loop breaks
once `count >= max_comments`, skips `MoreComments` nodes and nodes whose
`depth` attribute exists and is `>= max_depth`, and accepts a node when its
body is non-empty and not a tombstone (the Python code appends
`comment.body`; we keep the whole node and take bodies at the join). -/
def acceptedComments : List RComment → Nat → Nat → Nat → List RComment
  | [], _, _, _ => []
  | c :: rest, count, max_comments, max_depth =>
    if max_comments ≤ count then []
    else if c.isMore || (c.hasDepth && max_depth ≤ c.depth) then
      acceptedComments rest count max_comments max_depth
    else if c.body ≠ "" ∧ c.body ≠ "[deleted]" ∧ c.body ≠ "[removed]" then
      c :: acceptedComments rest (count + 1) max_comments max_depth
    else
      acceptedComments rest count max_comments max_depth

/-- `get_comments_text(submission, max_comments, max_depth)`: the accepted
bodies joined with `"\n---\n"`.  The Python defaults are
`max_comments = 20`, `max_depth = 5`. -/
def get_comments_text (comments : List RComment)
    (max_comments : Nat) (max_depth : Nat) : String :=
  String.intercalate "\n---\n"
    ((acceptedComments comments 0 max_comments max_depth).map RComment.body)

/-- The acceptance predicate of the loop, without the count limit. -/
def acceptsComment (max_depth : Nat) (c : RComment) : Bool :=
  !(c.isMore || (c.hasDepth && max_depth ≤ c.depth)) &&
  decide (c.body ≠ "" ∧ c.body ≠ "[deleted]" ∧ c.body ≠ "[removed]")

/-- Python's whitespace set for `str.strip()` (ASCII part). -/
def isPySpace (c : Char) : Bool :=
  c = ' ' || c = '\t' || c = '\n' || c = '\r' || c = '\x0b' || c = '\x0c'

/-- Python's `str.strip()`: drop whitespace from both ends. -/
def pyStrip (s : String) : String :=
  String.mk (((s.data.dropWhile isPySpace).reverse.dropWhile isPySpace).reverse)

/-! ## Post fetcher (`src/data_source/reddit.py`, `fetch_subreddit_posts`)

The generator `subreddit.hot(limit=limit)` yields at most `limit` items;
each iteration either produces a submission or raises.  We model the raw
stream as `List (Except String Submission)`: an `Except.error` item is the
point where a `PRAWException` (or any other exception) is raised, at which
the `except` clauses catch it and `posts_data` accumulated so far is
returned. -/

/-- One post dictionary, as appended to `posts_data`. -/
def mkPostData (s : Submission) : PostData :=
  let post_content := "Title: " ++ s.title ++ "\n\n" ++ s.selftext
  let comments := get_comments_text s.comments 20 5
  { id := s.id
    title := s.title
    url := s.url
    content := pyStrip post_content
    comments := comments
    combined_text := pyStrip post_content ++ "\n\nComments:\n" ++ comments }

/-- The `for submission in subreddit.hot(...)` loop with its surrounding
`try`: an error item ends the loop and the accumulated list is returned
(the exception is caught and logged); stickied submissions are skipped. -/
def fetchLoop : List (Except String Submission) → List PostData → List PostData
  | [], acc => acc
  | Except.error _ :: _, acc => acc
  | Except.ok s :: rest, acc =>
    if s.stickied then fetchLoop rest acc
    else fetchLoop rest (acc ++ [mkPostData s])

/-- `fetch_subreddit_posts(subreddit_name, limit)`: the raw request is
bounded by `limit`, then the loop filters and normalizes. -/
def fetch_subreddit_posts (stream : List (Except String Submission))
    (limit : Nat) : List PostData :=
  fetchLoop (stream.take limit) []

/-! ## Python exceptions

`SystemExit` derives from `BaseException`, not `Exception`: an
`except Exception` clause does not catch it, while `main.py` has a separate
`except SystemExit` clause.  A fallible call is `Except PyErr α`. -/

/-- A raised Python exception: an ordinary `Exception` or a `SystemExit`. -/
inductive PyErr where
  | exc (msg : String)
  | systemExit (msg : String)
deriving Repr, DecidableEq

/-- A constructed `QdrantClient` handle. -/
structure Client where
  handle : Nat
deriving Repr, DecidableEq

/-! ## Lazy singleton client (`src/db/qdrant.py`, `get_qdrant_client`)

`qdrant_client` is a module global, `None` until first use; `cached` is its
current value.  `init` is the outcome of the `QdrantClient(...)` constructor
call; if it raises, the function raises
`SystemExit("Qdrant connection error, exiting.")`. -/

/-- `get_qdrant_client()`: return the cached client, else construct one;
a construction failure is re-raised as `SystemExit`. -/
def get_qdrant_client (cached : Option Client)
    (init : Except String Client) : Except PyErr Client :=
  match cached with
  | some c => Except.ok c
  | none =>
    match init with
    | Except.ok c => Except.ok c
    | Except.error _ => Except.error (PyErr.systemExit "Qdrant connection error, exiting.")

/-! ## Collection bootstrapper (`src/db/qdrant.py`, `initialize_qdrant_collection`) -/

/-- Distance metric of a collection. -/
inductive DistanceM where
  | COSINE
  | EUCLID
  | DOT
deriving Repr, DecidableEq

/-- `models.VectorParams`. -/
structure VectorParamsM where
  size : Nat
  distance : DistanceM
deriving Repr, DecidableEq

/-- `models.HnswConfigDiff`. -/
structure HnswConfigM where
  m : Nat
  ef_construct : Nat
deriving Repr, DecidableEq

/-- Collection health status. -/
inductive CollStatus where
  | GREEN
  | YELLOW
  | RED
deriving Repr, DecidableEq

/-- One call issued to the vector store. -/
inductive StoreCall where
  | getCollections
  | createCollection (name : String) (vp : VectorParamsM) (hnsw : HnswConfigM)
  | getCollection (name : String)
deriving Repr, DecidableEq

/-- Whether a store call mutates the store. -/
def isMutating : StoreCall → Bool
  | StoreCall.createCollection _ _ _ => true
  | _ => false

/-- The store's responses: the existing collection names, an injected
exception for each kind of call (`none` means the call succeeds), and the
status `get_collection` reports. -/
structure StoreEnv where
  collections : List String
  getCollectionsFails : Option String
  createFails : Option String
  getCollectionFails : Option String
  status : CollStatus
deriving Repr, DecidableEq

/-- What a run of `initialize_qdrant_collection` produced: its result
(`Except.error` when it raised), the store calls it issued in order, and
the warnings it logged. -/
structure InitResult where
  res : Except PyErr Unit
  calls : List StoreCall
  warnings : List String
deriving Repr

/-- Display name of a collection status. -/
def statusName : CollStatus → String
  | CollStatus.GREEN => "green"
  | CollStatus.YELLOW => "yellow"
  | CollStatus.RED => "red"

/-- The status-verification warning text. -/
def statusWarning (name : String) (st : CollStatus) : String :=
  "Collection " ++ name ++ " status is " ++ statusName st ++ ". It might be optimizing."

/-- `initialize_qdrant_collection()`: obtain the client (a failure there
raises before the `try`), list collections, create the collection when
absent (size 384, cosine distance, HNSW `m=16`, `ef_construct=100`), then
read its status; a non-green status only logs a warning.  The
`except Exception ... raise` clause re-raises every store error. -/
def initialize_qdrant_collection (clientRes : Except PyErr Client)
    (env : StoreEnv) (collection_name : String) : InitResult :=
  match clientRes with
  | Except.error e => ⟨Except.error e, [], []⟩
  | Except.ok _ =>
    match env.getCollectionsFails with
    | some msg => ⟨Except.error (PyErr.exc msg), [StoreCall.getCollections], []⟩
    | none =>
      if collection_name ∈ env.collections then
        match env.getCollectionFails with
        | some msg =>
          ⟨Except.error (PyErr.exc msg),
           [StoreCall.getCollections, StoreCall.getCollection collection_name], []⟩
        | none =>
          ⟨Except.ok (),
           [StoreCall.getCollections, StoreCall.getCollection collection_name],
           if env.status = CollStatus.GREEN then []
           else [statusWarning collection_name env.status]⟩
      else
        match env.createFails with
        | some msg =>
          ⟨Except.error (PyErr.exc msg),
           [StoreCall.getCollections,
            StoreCall.createCollection collection_name ⟨384, DistanceM.COSINE⟩ ⟨16, 100⟩], []⟩
        | none =>
          match env.getCollectionFails with
          | some msg =>
            ⟨Except.error (PyErr.exc msg),
             [StoreCall.getCollections,
              StoreCall.createCollection collection_name ⟨384, DistanceM.COSINE⟩ ⟨16, 100⟩,
              StoreCall.getCollection collection_name], []⟩
          | none =>
            ⟨Except.ok (),
             [StoreCall.getCollections,
              StoreCall.createCollection collection_name ⟨384, DistanceM.COSINE⟩ ⟨16, 100⟩,
              StoreCall.getCollection collection_name],
             if env.status = CollStatus.GREEN then []
             else [statusWarning collection_name env.status]⟩

/-! ## Embedding and upsert engine (`src/db/qdrant.py`, `upsert_posts_to_qdrant`)

The pure data preparation (point ids, documents, payloads) is embedded
directly; the effectful part of the `try` block (loading the model,
encoding, the upsert call) is parametrized by its outcome. -/

/-- The payload stored with each point. -/
structure Payload where
  reddit_id : String
  title : String
  url : String
  content : String
  comments : String
deriving Repr, DecidableEq

/-- `point_ids = [str(uuid.uuid5(REDDIT_ID_NAMESPACE, post["id"])) for post in posts]`. -/
def point_ids (posts : List PostData) : List String :=
  posts.map (fun post => map_id post.id)

/-- `documents_to_embed = [post["combined_text"] for post in posts]`. -/
def documents_to_embed (posts : List PostData) : List String :=
  posts.map PostData.combined_text

/-- The payload built for one post. -/
def payloadOf (post : PostData) : Payload :=
  ⟨post.id, post.title, post.url, post.content, post.comments⟩

/-- `payloads = [...]`. -/
def payloads (posts : List PostData) : List Payload :=
  posts.map payloadOf

/-- Status returned by a successful `client.upsert` call. -/
inductive UpdateStatusM where
  | COMPLETED
  | ACKNOWLEDGED
deriving Repr, DecidableEq

/-- Outcome of the engine's `try` block: either every step succeeded and the
upsert call returned `status`, or some step (model load, encoding, the
upsert write, a dimension mismatch rejection) raised an `Exception`. -/
inductive EngineBody where
  | succeeds (status : UpdateStatusM)
  | raisesExc (msg : String)
deriving Repr, DecidableEq

/-- `upsert_posts_to_qdrant(posts)`: obtain the client first (before the
empty-list check and outside the `try`, so a `SystemExit` from
`get_qdrant_client` propagates); return early on an empty list; then run
the `try` block, whose `except Exception` swallows every raised
`Exception`, and where a non-`COMPLETED` status only logs a warning. -/
def upsert_posts_to_qdrant (cached : Option Client)
    (init : Except String Client) (posts : List PostData)
    (body : EngineBody) : Except PyErr Unit :=
  match get_qdrant_client cached init with
  | Except.error e => Except.error e
  | Except.ok _ =>
    if posts.length = 0 then Except.ok ()
    else
      match body with
      | EngineBody.succeeds _ => Except.ok ()
      | EngineBody.raisesExc _ => Except.ok ()

/-! ## Pipeline orchestrator (`src/main.py`, `run_pipeline`) -/

/-- Everything a run of the pipeline depends on: the client-construction
outcome, the store's behavior, the configured collection name, the raw
submission stream and fetch limit, and the engine body outcome. -/
structure PipelineEnv where
  clientInit : Except String Client
  storeEnv : StoreEnv
  collName : String
  stream : List (Except String Submission)
  fetchLimit : Nat
  upsertBody : EngineBody
deriving Repr

/-- Step 1 of the pipeline: `initialize_qdrant_collection()`, which first
obtains the singleton client (caching it for the rest of the run) and then
bootstraps the collection.  Returns the cached client on success. -/
def initStep (penv : PipelineEnv) : Except PyErr Client :=
  match get_qdrant_client none penv.clientInit with
  | Except.error e => Except.error e
  | Except.ok c =>
    match (initialize_qdrant_collection (Except.ok c) penv.storeEnv penv.collName).res with
    | Except.error e => Except.error e
    | Except.ok _ => Except.ok c

/-- The `try` block of `run_pipeline`: bootstrap, fetch, return early when
no posts were fetched, otherwise upsert (with the client already cached). -/
def pipelineBody (penv : PipelineEnv) : Except PyErr Unit :=
  match initStep penv with
  | Except.error e => Except.error e
  | Except.ok c =>
    let posts := fetch_subreddit_posts penv.stream penv.fetchLimit
    if posts.isEmpty then Except.ok ()
    else upsert_posts_to_qdrant (some c) penv.clientInit posts penv.upsertBody

/-- Process outcome of a run. -/
inductive RunResult where
  | success
  | exitCode (n : Nat)
deriving Repr, DecidableEq

/-- `run_pipeline()`: both `except SystemExit` and `except Exception` call
`sys.exit(1)`; falling off the end of the `try` is a successful exit. -/
def run_pipeline (penv : PipelineEnv) : RunResult :=
  match pipelineBody penv with
  | Except.ok _ => RunResult.success
  | Except.error _ => RunResult.exitCode 1

/-! ## Lemmas about the identifier mapper -/

theorem toBytesBE_length (n x : Nat) : (toBytesBE n x).length = n := by
  induction n generalizing x with
  | zero => simp [toBytesBE]
  | succ k ih => simp [toBytesBE, ih]

theorem sha1_length (msg : List Nat) : (sha1 msg).length = 20 := by
  simp [sha1, toBytesBE_length]

theorem land_lt_pow_two (x n : Nat) : x &&& (2 ^ n - 1) < 2 ^ n := by
  apply Nat.lt_pow_two_of_testBit
  intro i hi
  rw [Nat.testBit_land, Nat.testBit_two_pow_sub_one]
  simp
  omega

theorem uuid5Bytes_version_byte (ns : List Nat) (name : String) :
    (uuid5Bytes ns name).getD 6 0 =
      (((sha1 (ns ++ utf8Bytes name)).take 16).getD 6 0 &&& 0x0F) ||| 0x50 := by
  have hlen : ((sha1 (ns ++ utf8Bytes name)).take 16).length = 16 := by
    simp [List.length_take, sha1_length]
  unfold uuid5Bytes
  rw [List.getD_eq_getElem?_getD, List.getElem?_set_ne (by omega)]
  rw [List.getElem?_set_self (by rw [hlen]; omega)]
  simp

theorem uuid5Bytes_variant_byte (ns : List Nat) (name : String) :
    (uuid5Bytes ns name).getD 8 0 =
      ((((sha1 (ns ++ utf8Bytes name)).take 16).set 6
          ((((sha1 (ns ++ utf8Bytes name)).take 16).getD 6 0 &&& 0x0F) ||| 0x50)).getD 8 0
        &&& 0x3F) ||| 0x80 := by
  have hlen : ((sha1 (ns ++ utf8Bytes name)).take 16).length = 16 := by
    simp [List.length_take, sha1_length]
  unfold uuid5Bytes
  rw [List.getD_eq_getElem?_getD,
      List.getElem?_set_self (by rw [List.length_set, hlen]; omega)]
  simp

theorem version_nibble_eq_five (y : Nat) : ((y &&& 0x0F) ||| 0x50) / 16 = 5 := by
  have h : y &&& 0x0F < 16 := by
    have := land_lt_pow_two y 4
    norm_num at this
    exact this
  have hall : ∀ r < 16, (r ||| 80) / 16 = 5 := by decide
  exact hall _ h

theorem variant_bits_eq_two (y : Nat) : ((y &&& 0x3F) ||| 0x80) / 64 = 2 := by
  have h : y &&& 0x3F < 64 := by
    have := land_lt_pow_two y 6
    norm_num at this
    exact this
  have hall : ∀ r < 64, (r ||| 128) / 64 = 2 := by decide
  exact hall _ h

/-- C1: The identifier mapping is pure and deterministic: for every
external post id string `x`, the derived point id is the version-5 UUID of
`x` under the fixed namespace `REDDIT_ID_NAMESPACE = uuid.NAMESPACE_URL`
(its version nibble is 5 and its variant bits are `10`), so
`map_id x = map_id x` on every call, the mapping is a plain function of
`x` alone, and the engine's `point_ids` are exactly the images of the
posts' external ids under this one function. -/
theorem map_id_deterministic_version5 (x : String) (posts : List PostData) :
    map_id x = map_id x ∧
    map_id x = uuidToString (uuid5Bytes REDDIT_ID_NAMESPACE x) ∧
    uuidVersion (uuid5Bytes REDDIT_ID_NAMESPACE x) = 5 ∧
    uuidVariant (uuid5Bytes REDDIT_ID_NAMESPACE x) = 2 ∧
    point_ids posts = posts.map (fun post => map_id post.id) := by
  refine ⟨rfl, rfl, ?_, ?_, rfl⟩
  · rw [uuidVersion, uuid5Bytes_version_byte]
    exact version_nibble_eq_five _
  · rw [uuidVariant, uuid5Bytes_variant_byte]
    exact variant_bits_eq_two _

/-! ## Lemmas about the comment flattener -/

/-- The loop with running count `count` is the unlimited filter truncated to
the remaining budget `max_comments - count`: acceptance proceeds in
traversal order and stops as soon as the budget is used up. -/
theorem acceptedComments_eq_take_filter (cs : List RComment) :
    ∀ count max_comments max_depth,
      acceptedComments cs count max_comments max_depth =
        (cs.filter (fun c => acceptsComment max_depth c)).take (max_comments - count) := by
  induction cs with
  | nil => intro count mc md; simp [acceptedComments]
  | cons c rest ih =>
    intro count mc md
    by_cases h1 : mc ≤ count
    · rw [acceptedComments, if_pos h1, Nat.sub_eq_zero_of_le h1, List.take_zero]
    · rw [acceptedComments, if_neg h1]
      by_cases h2 : (c.isMore || (c.hasDepth && decide (md ≤ c.depth))) = true
      · rw [if_pos h2, List.filter_cons_of_neg (by simp [acceptsComment, h2]), ih]
      · rw [if_neg h2]
        by_cases h3 : c.body ≠ "" ∧ c.body ≠ "[deleted]" ∧ c.body ≠ "[removed]"
        · rw [if_pos h3, List.filter_cons_of_pos (by simp [acceptsComment, h2, h3]), ih]
          have hpos : count < mc := Nat.lt_of_not_le h1
          have : mc - count = (mc - (count + 1)) + 1 := by omega
          rw [this, List.take_succ_cons]
        · rw [if_neg h3,
              List.filter_cons_of_neg (by simp only [acceptsComment]; simp [h2, h3]), ih]

/-- A comment the loop accepted satisfies the acceptance predicate. -/
theorem mem_acceptedComments (cs : List RComment) (count mc md : Nat) (c : RComment)
    (h : c ∈ acceptedComments cs count mc md) : acceptsComment md c = true := by
  rw [acceptedComments_eq_take_filter] at h
  exact (List.mem_filter.mp (List.mem_of_mem_take h)).2

/-- C2: For every comment tree and every `max_comments` and `max_depth`, the
flattener accepts at most `max_comments` comments; no accepted comment that
carries a depth attribute has depth `≥ max_depth`; acceptance is the
traversal-order filter truncated as soon as `max_comments` real comments
have been accepted; and the fetcher invokes the flattener with the default
limits 20 and 5. -/
theorem get_comments_text_respects_limits (cs : List RComment) (mc md : Nat) :
    (acceptedComments cs 0 mc md).length ≤ mc ∧
    (∀ c ∈ acceptedComments cs 0 mc md, c.hasDepth = true → c.depth < md) ∧
    acceptedComments cs 0 mc md =
      (cs.filter (fun c => acceptsComment md c)).take mc ∧
    (∀ s : Submission, (mkPostData s).comments = get_comments_text s.comments 20 5) := by
  refine ⟨?_, ?_, ?_, fun s => rfl⟩
  · rw [acceptedComments_eq_take_filter, Nat.sub_zero]
    exact List.length_take_le _ _
  · intro c hc hd
    have hacc := mem_acceptedComments cs 0 mc md c hc
    simp [acceptsComment, hd] at hacc
    omega
  · rw [acceptedComments_eq_take_filter, Nat.sub_zero]

/-- Witness for C2 on a concrete tree: two real comments at depths 2 and 7
with `max_depth = 5` — the bound holds and the depth-2 comment is accepted
below the limit. -/
theorem get_comments_text_respects_limits_witness :
    (acceptedComments [⟨false, true, 2, "a"⟩, ⟨false, true, 7, "b"⟩] 0 20 5).length ≤ 20 ∧
    RComment.depth ⟨false, true, 2, "a"⟩ < 5 :=
  ⟨(get_comments_text_respects_limits [⟨false, true, 2, "a"⟩, ⟨false, true, 7, "b"⟩] 20 5).1,
   (get_comments_text_respects_limits [⟨false, true, 2, "a"⟩, ⟨false, true, 7, "b"⟩] 20 5).2.1
     ⟨false, true, 2, "a"⟩ (by decide) rfl⟩

/-- C3: For every comment tree, no placeholder node, empty body, or
tombstoned body (`"[deleted]"` / `"[removed]"`) is ever accepted; the output
is the accepted bodies joined with the fixed separator `"\n---\n"` in
acceptance order; and when zero comments are accepted the output is the
empty string. -/
theorem get_comments_text_clean_output (cs : List RComment) (mc md : Nat) :
    (∀ c ∈ acceptedComments cs 0 mc md,
       c.isMore = false ∧ c.body ≠ "" ∧ c.body ≠ "[deleted]" ∧ c.body ≠ "[removed]") ∧
    get_comments_text cs mc md =
      String.intercalate "\n---\n" ((acceptedComments cs 0 mc md).map RComment.body) ∧
    (acceptedComments cs 0 mc md = [] → get_comments_text cs mc md = "") := by
  refine ⟨?_, rfl, ?_⟩
  · intro c hc
    have hacc := mem_acceptedComments cs 0 mc md c hc
    simp [acceptsComment] at hacc
    exact ⟨hacc.1.1, hacc.2⟩
  · intro h
    rw [get_comments_text, h]
    rfl

/-- Witness for C3 on a concrete tree whose only nodes are a placeholder, a
tombstone and an empty body: nothing is accepted and the output is `""`. -/
theorem get_comments_text_clean_output_witness :
    get_comments_text
      [⟨true, true, 0, "more"⟩, ⟨false, true, 0, "[deleted]"⟩, ⟨false, true, 1, ""⟩] 20 5 = "" :=
  (get_comments_text_clean_output
      [⟨true, true, 0, "more"⟩, ⟨false, true, 0, "[deleted]"⟩, ⟨false, true, 1, ""⟩] 20 5).2.2
    (by decide)

/-! ## Lemmas about the post fetcher -/

/-- Every post the loop returns was in the accumulator already or was built
from a non-stickied submission yielded before any error. -/
theorem fetchLoop_mem (stream : List (Except String Submission)) :
    ∀ acc p, p ∈ fetchLoop stream acc →
      p ∈ acc ∨ ∃ s, Except.ok s ∈ stream ∧ s.stickied = false ∧ p = mkPostData s := by
  induction stream with
  | nil => intro acc p h; exact Or.inl h
  | cons x rest ih =>
    intro acc p h
    match x with
    | Except.error e => exact Or.inl h
    | Except.ok s =>
      by_cases hs : s.stickied
      · rw [fetchLoop, if_pos hs] at h
        rcases ih acc p h with h' | ⟨s', hs1, hs2, hs3⟩
        · exact Or.inl h'
        · exact Or.inr ⟨s', List.mem_cons_of_mem _ hs1, hs2, hs3⟩
      · rw [fetchLoop, if_neg hs] at h
        rcases ih _ p h with h' | ⟨s', hs1, hs2, hs3⟩
        · rcases List.mem_append.mp h' with h'' | h''
          · exact Or.inl h''
          · exact Or.inr ⟨s, List.mem_cons_self _ _,
              Bool.eq_false_iff.mpr hs, List.mem_singleton.mp h''⟩
        · exact Or.inr ⟨s', List.mem_cons_of_mem _ hs1, hs2, hs3⟩

/-- The loop adds at most one post per stream item. -/
theorem fetchLoop_length (stream : List (Except String Submission)) :
    ∀ acc, (fetchLoop stream acc).length ≤ acc.length + stream.length := by
  induction stream with
  | nil => intro acc; simp [fetchLoop]
  | cons x rest ih =>
    intro acc
    match x with
    | Except.error e =>
      simp only [fetchLoop, List.length_cons]
      omega
    | Except.ok s =>
      by_cases hs : s.stickied
      · rw [fetchLoop, if_pos hs]
        have := ih acc
        simp only [List.length_cons]
        omega
      · rw [fetchLoop, if_neg hs]
        have := ih (acc ++ [mkPostData s])
        simp [List.length_append] at this
        simp only [List.length_cons]
        omega

/-- When every item before the error point is a yielded submission, the loop
ends at the error with exactly the posts accumulated from the prefix. -/
theorem fetchLoop_append_error (e : String) (ys : List (Except String Submission))
    (xs : List (Except String Submission)) :
    ∀ acc, (∀ x ∈ xs, ∃ s, x = Except.ok s) →
      fetchLoop (xs ++ Except.error e :: ys) acc = fetchLoop xs acc := by
  induction xs with
  | nil => intro acc _; rfl
  | cons x rest ih =>
    intro acc hok
    obtain ⟨s, hs⟩ := hok x (List.mem_cons_self _ _)
    subst hs
    by_cases hst : s.stickied
    · rw [List.cons_append, fetchLoop, if_pos hst, fetchLoop, if_pos hst]
      exact ih acc (fun x hx => hok x (List.mem_cons_of_mem _ hx))
    · rw [List.cons_append, fetchLoop, if_neg hst, fetchLoop, if_neg hst]
      exact ih _ (fun x hx => hok x (List.mem_cons_of_mem _ hx))

/-- C4: Every record the fetcher returns has `content` equal to
`"Title: {title}\n\n{selftext}"` stripped of surrounding whitespace for its
source submission, `comments` produced by the flattener at the default
limits, and `combined_text` equal to `"{content}\n\nComments:\n{comments}"`
built purely from the `content` and `comments` fields of the same record. -/
theorem fetch_post_fields (stream : List (Except String Submission)) (limit : Nat)
    (p : PostData) (hp : p ∈ fetch_subreddit_posts stream limit) :
    p.combined_text = p.content ++ "\n\nComments:\n" ++ p.comments ∧
    ∃ s : Submission, Except.ok s ∈ stream ∧
      p.content = pyStrip ("Title: " ++ s.title ++ "\n\n" ++ s.selftext) ∧
      p.comments = get_comments_text s.comments 20 5 := by
  rcases fetchLoop_mem _ _ p hp with h | ⟨s, hs1, _, hs3⟩
  · simp at h
  · subst hs3
    exact ⟨rfl, s, List.mem_of_mem_take hs1, rfl, rfl⟩

/-- Witness for C4 on a one-submission stream. -/
theorem fetch_post_fields_witness :
    (mkPostData ⟨"p1", "T", "body", "u", false, []⟩).combined_text =
      (mkPostData ⟨"p1", "T", "body", "u", false, []⟩).content ++ "\n\nComments:\n" ++
      (mkPostData ⟨"p1", "T", "body", "u", false, []⟩).comments :=
  (fetch_post_fields [Except.ok ⟨"p1", "T", "body", "u", false, []⟩] 1
    (mkPostData ⟨"p1", "T", "body", "u", false, []⟩) (by decide)).1

/-- C6: The fetcher never propagates an exception: a raw stream that raises
at some point yields exactly the posts accumulated from the prefix before
the error; on every run the returned list contains only records built from
non-stickied submissions and has length at most the requested limit. -/
theorem fetch_error_policy (stream : List (Except String Submission)) (limit : Nat) :
    (fetch_subreddit_posts stream limit).length ≤ limit ∧
    (∀ p ∈ fetch_subreddit_posts stream limit,
       ∃ s, Except.ok s ∈ stream ∧ s.stickied = false ∧ p = mkPostData s) ∧
    (∀ (xs ys : List (Except String Submission)) (e : String),
       (∀ x ∈ xs, ∃ s, x = Except.ok s) →
       fetch_subreddit_posts (xs ++ Except.error e :: ys) limit =
         fetch_subreddit_posts xs limit) := by
  refine ⟨?_, ?_, ?_⟩
  · have := fetchLoop_length (stream.take limit) []
    simp only [List.length_nil, Nat.zero_add] at this
    exact le_trans this (List.length_take_le _ _)
  · intro p hp
    rcases fetchLoop_mem _ _ p hp with h | ⟨s, hs1, hs2, hs3⟩
    · simp at h
    · exact ⟨s, List.mem_of_mem_take hs1, hs2, hs3⟩
  · intro xs ys e hok
    unfold fetch_subreddit_posts
    by_cases hlim : limit ≤ xs.length
    · rw [List.take_append_of_le_length hlim]
    · have hxs : xs.take limit = xs := List.take_of_length_le (by omega)
      rw [List.take_append_eq_append_take, hxs]
      have h1 : 1 ≤ limit - xs.length := by omega
      obtain ⟨k, hk⟩ : ∃ k, limit - xs.length = k + 1 := ⟨limit - xs.length - 1, by omega⟩
      rw [hk, List.take_succ_cons]
      exact fetchLoop_append_error e _ xs [] hok

/-- Witness for C6: a stream that yields one submission and then raises
returns exactly the one accumulated post list. -/
theorem fetch_error_policy_witness :
    fetch_subreddit_posts
      ([Except.ok ⟨"p1", "T", "body", "u", false, []⟩] ++
        Except.error "RequestException" :: [Except.ok ⟨"p2", "U", "b", "v", false, []⟩]) 5 =
    fetch_subreddit_posts [Except.ok ⟨"p1", "T", "body", "u", false, []⟩] 5 :=
  (fetch_error_policy
      ([Except.ok ⟨"p1", "T", "body", "u", false, []⟩] ++
        Except.error "RequestException" :: [Except.ok ⟨"p2", "U", "b", "v", false, []⟩]) 5).2.2
    [Except.ok ⟨"p1", "T", "body", "u", false, []⟩]
    [Except.ok ⟨"p2", "U", "b", "v", false, []⟩] "RequestException"
    (fun _ hx => ⟨⟨"p1", "T", "body", "u", false, []⟩, List.mem_singleton.mp hx⟩)

/-! ## The orchestrator and the store-side components -/

/-- C5: If the post fetcher returns an empty sequence, the run terminates
successfully (not in the failed state), and the upsert engine is never
invoked: the outcome does not depend on the engine's behavior at all. -/
theorem empty_fetch_success (penv : PipelineEnv) (c : Client)
    (hinit : initStep penv = Except.ok c)
    (hempty : fetch_subreddit_posts penv.stream penv.fetchLimit = []) :
    run_pipeline penv = RunResult.success ∧
    (∀ body : EngineBody,
       run_pipeline { penv with upsertBody := body } = RunResult.success) := by
  have hbody : ∀ body : EngineBody,
      pipelineBody { penv with upsertBody := body } = Except.ok () := by
    intro body
    have hinit' : initStep { penv with upsertBody := body } = Except.ok c := hinit
    rw [pipelineBody, hinit']
    have : fetch_subreddit_posts penv.stream penv.fetchLimit = [] := hempty
    simp [this]
  constructor
  · have := hbody penv.upsertBody
    rw [run_pipeline]
    have heq : pipelineBody penv = Except.ok () := this
    rw [heq]
  · intro body
    rw [run_pipeline, hbody body]

/-- Witness for C5: a healthy store and an exhausted stream end the run
successfully. -/
theorem empty_fetch_success_witness :
    run_pipeline
      ⟨Except.ok ⟨0⟩, ⟨["reddit_posts"], none, none, none, CollStatus.GREEN⟩,
       "reddit_posts", [], 5, EngineBody.succeeds UpdateStatusM.COMPLETED⟩ =
      RunResult.success :=
  (empty_fetch_success
      ⟨Except.ok ⟨0⟩, ⟨["reddit_posts"], none, none, none, CollStatus.GREEN⟩,
       "reddit_posts", [], 5, EngineBody.succeeds UpdateStatusM.COMPLETED⟩
      ⟨0⟩ rfl rfl).1

/-- C7: When the target collection already exists, the bootstrapper makes
zero mutating store calls — only the listing read and the status read — and
a non-green status produces a warning, not a failure; when the collection is
absent it is created exactly once, with dimensionality 384, cosine distance,
and HNSW parameters `m = 16`, `ef_construct = 100`. -/
theorem ensure_collection_frame (c : Client) (env : StoreEnv) (name : String)
    (h1 : env.getCollectionsFails = none) (h2 : env.getCollectionFails = none) :
    (name ∈ env.collections →
       (initialize_qdrant_collection (Except.ok c) env name).res = Except.ok () ∧
       (initialize_qdrant_collection (Except.ok c) env name).calls =
         [StoreCall.getCollections, StoreCall.getCollection name] ∧
       (∀ call ∈ (initialize_qdrant_collection (Except.ok c) env name).calls,
          isMutating call = false)) ∧
    (env.status ≠ CollStatus.GREEN → name ∈ env.collections →
       (initialize_qdrant_collection (Except.ok c) env name).warnings =
         [statusWarning name env.status] ∧
       (initialize_qdrant_collection (Except.ok c) env name).res = Except.ok ()) ∧
    (name ∉ env.collections → env.createFails = none →
       (initialize_qdrant_collection (Except.ok c) env name).calls =
         [StoreCall.getCollections,
          StoreCall.createCollection name ⟨384, DistanceM.COSINE⟩ ⟨16, 100⟩,
          StoreCall.getCollection name] ∧
       (initialize_qdrant_collection (Except.ok c) env name).res = Except.ok ()) := by
  refine ⟨?_, ?_, ?_⟩
  · intro hmem
    rw [initialize_qdrant_collection, h1, if_pos hmem, h2]
    refine ⟨rfl, rfl, ?_⟩
    intro call hcall
    rcases hcall with _ | ⟨_, hcall⟩
    · rfl
    · rcases hcall with _ | ⟨_, hcall⟩
      · rfl
      · cases hcall
  · intro hst hmem
    rw [initialize_qdrant_collection, h1, if_pos hmem, h2]
    exact ⟨by show (if env.status = CollStatus.GREEN then ([] : List String)
                    else [statusWarning name env.status]) = _
              rw [if_neg hst], rfl⟩
  · intro hmem h3
    rw [initialize_qdrant_collection, h1, if_neg hmem, h3, h2]
    exact ⟨rfl, rfl⟩

/-- Witness for C7: both the existing-collection and the absent-collection
branches at concrete store states. -/
theorem ensure_collection_frame_witness :
    (initialize_qdrant_collection (Except.ok ⟨0⟩)
        ⟨["reddit_posts"], none, none, none, CollStatus.YELLOW⟩ "reddit_posts").res =
      Except.ok () ∧
    (initialize_qdrant_collection (Except.ok ⟨0⟩)
        ⟨["reddit_posts"], none, none, none, CollStatus.YELLOW⟩ "reddit_posts").warnings =
      [statusWarning "reddit_posts" CollStatus.YELLOW] :=
  ⟨((ensure_collection_frame ⟨0⟩
        ⟨["reddit_posts"], none, none, none, CollStatus.YELLOW⟩ "reddit_posts" rfl rfl).1
      (by decide)).1,
   ((ensure_collection_frame ⟨0⟩
        ⟨["reddit_posts"], none, none, none, CollStatus.YELLOW⟩ "reddit_posts" rfl rfl).2.1
      (by decide) (by decide)).1⟩

/-- C8: The bootstrapper never swallows a store error — its run succeeds
exactly when no store call on its execution path failed — and when the
bootstrap step errors, the orchestrator exits with code 1 regardless of the
stream, the fetch limit, or the engine outcome (fetch and upsert are never
run). -/
theorem bootstrap_errors_fatal (c : Client) (env : StoreEnv) (name : String) :
    ((initialize_qdrant_collection (Except.ok c) env name).res = Except.ok () ↔
      env.getCollectionsFails = none ∧ env.getCollectionFails = none ∧
      (name ∈ env.collections ∨ env.createFails = none)) ∧
    (∀ (penv : PipelineEnv) (e : PyErr), initStep penv = Except.error e →
       ∀ (stream : List (Except String Submission)) (limit : Nat) (body : EngineBody),
         run_pipeline
             { penv with stream := stream, fetchLimit := limit, upsertBody := body } =
           RunResult.exitCode 1) := by
  constructor
  · rw [initialize_qdrant_collection]
    rcases hgc : env.getCollectionsFails with _ | msg
    · by_cases hmem : name ∈ env.collections
      · rw [if_pos hmem]
        rcases hgi : env.getCollectionFails with _ | msg2
        · simp [hmem]
        · simp [hgi]
      · rw [if_neg hmem]
        rcases hcr : env.createFails with _ | msg2
        · rcases hgi : env.getCollectionFails with _ | msg3
          · simp [hmem, hgi]
          · simp [hgi]
        · simp [hmem, hcr]
    · simp [hgc]
  · intro penv e hstep stream limit body
    have hstep' :
        initStep { penv with stream := stream, fetchLimit := limit, upsertBody := body } =
          Except.error e := hstep
    rw [run_pipeline, pipelineBody, hstep']

/-- Witness for C8: a store whose listing call raises aborts the run with
exit code 1 for a concrete environment. -/
theorem bootstrap_errors_fatal_witness :
    run_pipeline
      ⟨Except.ok ⟨0⟩, ⟨[], some "ConnectionError", none, none, CollStatus.GREEN⟩,
       "reddit_posts", [Except.ok ⟨"p1", "T", "b", "u", false, []⟩], 5,
       EngineBody.succeeds UpdateStatusM.COMPLETED⟩ =
      RunResult.exitCode 1 :=
  (bootstrap_errors_fatal ⟨0⟩ ⟨[], some "ConnectionError", none, none, CollStatus.GREEN⟩
      "reddit_posts").2
    ⟨Except.ok ⟨0⟩, ⟨[], some "ConnectionError", none, none, CollStatus.GREEN⟩,
     "reddit_posts", [Except.ok ⟨"p1", "T", "b", "u", false, []⟩], 5,
     EngineBody.succeeds UpdateStatusM.COMPLETED⟩
    (PyErr.exc "ConnectionError") rfl
    [Except.ok ⟨"p1", "T", "b", "u", false, []⟩] 5
    (EngineBody.succeeds UpdateStatusM.COMPLETED)

/-- C9: Once the client is obtainable, every outcome of the engine's
embed-and-write phase — a raised `Exception` (model load failure, store
rejecting the write, dimension mismatch) as well as an upsert response with
a non-`COMPLETED` status — leaves `upsert_posts_to_qdrant` returning
normally: errors are logged and swallowed, a non-completed status only
warns. -/
theorem engine_errors_swallowed (cached : Option Client) (init : Except String Client)
    (c : Client) (posts : List PostData) (body : EngineBody)
    (h : get_qdrant_client cached init = Except.ok c) :
    upsert_posts_to_qdrant cached init posts body = Except.ok () := by
  rw [upsert_posts_to_qdrant.eq_def, h]
  by_cases hp : posts.length = 0
  · rw [if_pos hp]
  · rw [if_neg hp]
    cases body <;> rfl

/-- Witness for C9: a raised model-load `Exception` on a non-empty batch
returns normally. -/
theorem engine_errors_swallowed_witness :
    upsert_posts_to_qdrant (some ⟨0⟩) (Except.ok ⟨0⟩)
        [⟨"p1", "T", "u", "c", "cm", "ct"⟩]
        (EngineBody.raisesExc "model load failure") =
      Except.ok () :=
  engine_errors_swallowed (some ⟨0⟩) (Except.ok ⟨0⟩) ⟨0⟩
    [⟨"p1", "T", "u", "c", "cm", "ct"⟩]
    (EngineBody.raisesExc "model load failure") rfl

/-- C10: Calling the engine with an empty post list is not a pure no-op:
the client is obtained before the emptiness check, and when its lazy
construction fails the call raises `SystemExit` — which the engine's
`except Exception` cannot catch — instead of returning normally; the
orchestrator maps any `SystemExit` escaping the pipeline body to exit
code 1. -/
theorem engine_client_failure_escapes (e : String) (body : EngineBody)
    (penv : PipelineEnv) (m : String)
    (hrun : pipelineBody penv = Except.error (PyErr.systemExit m)) :
    upsert_posts_to_qdrant none (Except.error e) [] body =
      Except.error (PyErr.systemExit "Qdrant connection error, exiting.") ∧
    run_pipeline penv = RunResult.exitCode 1 := by
  constructor
  · rfl
  · rw [run_pipeline, hrun]

/-- Witness for C10: a failing client construction plus an empty post list
still raises, and a pipeline whose client construction fails exits with
code 1. -/
theorem engine_client_failure_escapes_witness :
    upsert_posts_to_qdrant none (Except.error "connection refused") []
        (EngineBody.succeeds UpdateStatusM.COMPLETED) =
      Except.error (PyErr.systemExit "Qdrant connection error, exiting.") ∧
    run_pipeline
        ⟨Except.error "connection refused",
         ⟨["reddit_posts"], none, none, none, CollStatus.GREEN⟩,
         "reddit_posts", [], 5, EngineBody.succeeds UpdateStatusM.COMPLETED⟩ =
      RunResult.exitCode 1 :=
  engine_client_failure_escapes "connection refused"
    (EngineBody.succeeds UpdateStatusM.COMPLETED)
    ⟨Except.error "connection refused",
     ⟨["reddit_posts"], none, none, none, CollStatus.GREEN⟩,
     "reddit_posts", [], 5, EngineBody.succeeds UpdateStatusM.COMPLETED⟩
    "Qdrant connection error, exiting." rfl

end AnswerWeaver
